import Mathlib

/-!
Verification of the ATS resume-screening system (sahyay/ATSSCREENING-RUDRA).

The repository under scrutiny is a React front end plus a scoring core
described in the design document.  Pure fragments of the front-end pages
(`Results.jsx`, `Dashboard`, `ResumeUpload.jsx`, `JobRoles`) are embedded
directly from the source.  The extraction/scoring/batch core is not part of
the shipped sources, so it is modelled from the design document, and every
definition doing so says which contract it follows.
-/

namespace ATS

/-! ## Display classification (embedded from source)

`Results.jsx` lines 107-111:
```
const getScoreClass = (score) => {
  if (score >= 70) return "score-high"
  if (score >= 40) return "score-medium"
  return "score-low"
}
```
Scores are integers 1..100 by contract; we embed over `Int`. -/

def getScoreClass (score : Int) : String :=
  if score ≥ 70 then "score-high"
  else if score ≥ 40 then "score-medium"
  else "score-low"

/-- `Dashboard` (src/unnamed/part_001 lines 164-168) classifies inline:
`result.score >= 70 ? "score-high" : result.score >= 40 ? "score-medium" : "score-low"`. -/
def dashboardScoreClass (score : Int) : String :=
  if score ≥ 70 then "score-high"
  else if score ≥ 40 then "score-medium"
  else "score-low"

/-- `Results.jsx` line 202: `result.score < 40 ? "rejected" : ""` selects the
rejected card style; line 258 shows the rejection message under the same test. -/
def resultCardRejected (score : Int) : Bool :=
  score < 40

/-! ## Upload MIME filter (embedded from source)

`ResumeUpload.jsx` `handleFileChange` (lines 42-46) and `handleDrop`
(lines 139-143) both keep exactly the files whose `type` is
`application/pdf` or the DOCX MIME type. -/

structure UploadFile where
  name : String
  type : String
deriving DecidableEq

def pdfMime : String := "application/pdf"

def docxMime : String := "application/vnd.openxmlformats-officedocument.wordprocessingml.document"

/-- Filter used by `handleFileChange` (`ResumeUpload.jsx` lines 42-46). -/
def handleFileChangeValid (selectedFiles : List UploadFile) : List UploadFile :=
  selectedFiles.filter (fun file => file.type == pdfMime || file.type == docxMime)

/-- Filter used by `handleDrop` (`ResumeUpload.jsx` lines 139-143). -/
def handleDropValid (droppedFiles : List UploadFile) : List UploadFile :=
  droppedFiles.filter (fun file => file.type == pdfMime || file.type == docxMime)

/-! ## Job-roles form skill parsing (embedded from source)

`JobRoles.handleSubmit` (src/unnamed/part_001 lines 256-260):
`skills: formData.skills.split(",").map((skill) => skill.trim())`.
We embed JavaScript `String.prototype.split(",")` and `trim` over `List Char`. -/

/-- JavaScript `s.split(sep)` semantics for a one-character separator:
every occurrence of the separator delimits a field and empty fields are kept;
the empty string splits to `[""]`. -/
def splitOnChar (sep : Char) : List Char → List (List Char)
  | [] => [[]]
  | c :: cs =>
    if c = sep then [] :: splitOnChar sep cs
    else
      match splitOnChar sep cs with
      | t :: ts => (c :: t) :: ts
      | [] => [[c]]

/-- JavaScript `String.prototype.trim`: strip whitespace from both ends. -/
def trimChars (cs : List Char) : List Char :=
  ((cs.dropWhile Char.isWhitespace).reverse.dropWhile Char.isWhitespace).reverse

/-- The skills array submitted by the job-roles form:
`formData.skills.split(",").map((skill) => skill.trim())`. -/
def submittedSkills (s : String) : List String :=
  (splitOnChar ',' s.data).map (fun cs => String.mk (trimChars cs))

example : submittedSkills "Python, Machine Learning" = ["Python", "Machine Learning"] := by decide
example : submittedSkills "Python, " = ["Python", ""] := by decide
example : submittedSkills "Python," = ["Python", ""] := by decide
example : submittedSkills "a,,b" = ["a", "", "b"] := by decide
example : submittedSkills "" = [""] := by decide

/-! ## Data model (design document section 3) -/

/-- `JobRole` record shape from the design document section 3. -/
structure JobRole where
  id : Nat
  title : String
  department : String
  location : String
  description : String
  requirements : String
  skills : List String
  createdAt : Nat
deriving DecidableEq

/-- `ExtractedProfile` from the design document section 3: `rawText` always
present, the four contact fields best-effort optional. -/
structure ExtractedProfile where
  rawText : String
  name : Option String
  email : Option String
  phone : Option String
  college : Option String
deriving DecidableEq

/-! ## Text Normalizer (section 4.2)

Modelled from the spec: the shipped repository contains only the UI, so the
normalizer is built from the contract in section 4.2: lowercase the text and
expose a token sequence split on whitespace/punctuation boundaries with
internal hyphens preserved. -/

/-- A character that belongs inside a token: alphanumeric, or a hyphen
(section 4.2 keeps internal hyphens so "machine-learning" stays one token). -/
def isWordChar (c : Char) : Bool :=
  c.isAlphanum || c == '-'

/-- Split a character list into maximal runs of characters satisfying `p`,
discarding the separators.  `acc` holds the current run reversed. -/
def chunksAux (p : Char → Bool) (acc : List Char) : List Char → List (List Char)
  | [] => if acc.isEmpty then [] else [acc.reverse]
  | c :: cs =>
    if p c then chunksAux p (c :: acc) cs
    else if acc.isEmpty then chunksAux p [] cs
    else acc.reverse :: chunksAux p [] cs

/-- Modelled from the spec (section 4.2 Text Normalizer): the token sequence of
a text — lowercase it, then split on whitespace/punctuation boundaries keeping
internal hyphens. -/
def textTokens (s : String) : List (List Char) :=
  chunksAux isWordChar [] (s.data.map Char.toLower)

example : textTokens "Machine-Learning, and SQL!" =
    ["machine-learning".data, "and".data, "sql".data] := by decide
example : textTokens "" = [] := by decide

/-! ## Skill Matcher (section 4.3)

Modelled from the spec: a job skill is normalized exactly like resume text and
is matched when its token sequence occurs contiguously in the resume token
sequence (whole-word-boundary presence, not arbitrary substring); duplicate
skills in the job list count once (set semantics). -/

/-- Whether one skill is present in the resume on whole-word boundaries:
its (non-empty) normalized token run occurs contiguously among the resume
tokens. -/
def skillFound (resumeTokens : List (List Char)) (skill : String) : Bool :=
  !(textTokens skill).isEmpty && decide (textTokens skill <:+: resumeTokens)

/-- Modelled from the spec (section 4.3 Skill Matcher): the set of job skills
present in the resume text, duplicates matched at most once. -/
def matchSkills (resumeTokens : List (List Char)) (jobSkills : List String) : List String :=
  jobSkills.dedup.filter (skillFound resumeTokens)

example : matchSkills (textTokens "I worked at Google") ["Go"] = [] := by decide
example : matchSkills (textTokens "Go and Python") ["Go"] = ["Go"] := by decide
example : matchSkills (textTokens "expert in JavaScript") ["Java"] = [] := by decide
example : matchSkills (textTokens "expert in JavaScript") ["Java", "JavaScript"] =
    ["JavaScript"] := by decide
example : matchSkills (textTokens "machine-learning systems") ["Machine-Learning"] =
    ["Machine-Learning"] := by decide

/-! ## Field Extractor (section 4.4)

Modelled from the spec: pattern-based heuristics over the raw text for
email, phone, college line and name line; each independently optional. -/

/-- Whitespace-delimited words of the raw text. -/
def wordsOf (cs : List Char) : List (List Char) :=
  chunksAux (fun c => !c.isWhitespace) [] cs

/-- Lines of the raw text (split on newline, keeping empty lines). -/
def linesOf (cs : List Char) : List (List Char) :=
  splitOnChar '\n' cs

/-- Characters allowed in the local part of an email (section 4.4:
letters/digits/`.`/`_`/`-`). -/
def emailLocalChar (c : Char) : Bool :=
  c.isAlphanum || c == '.' || c == '_' || c == '-'

/-- Section 4.4 email shape: `local@label.….tld` with a non-empty local part of
allowed characters, at least two dot-separated non-empty domain labels, and a
final all-letter label of length at least 2. -/
def isEmailWord (w : List Char) : Bool :=
  match splitOnChar '@' w with
  | [loc, domain] =>
    !loc.isEmpty && loc.all emailLocalChar &&
      (let labels := splitOnChar '.' domain
       decide (2 ≤ labels.length) &&
         labels.all (fun l => !l.isEmpty && l.all (fun c => c.isAlphanum || c == '-')) &&
         (match labels.getLast? with
          | some tld => decide (2 ≤ tld.length) && tld.all Char.isAlpha
          | none => false))
  | _ => false

/-- Section 4.4 phone shape: optional leading `+`, then digits with
`-`/`(`/`)` separators, 7-15 digits in total; the word is already bounded by
whitespace so it is not a fragment of a longer numeric run. -/
def isPhoneWord (w : List Char) : Bool :=
  let core := match w with
    | '+' :: rest => rest
    | _ => w
  let digits := core.filter Char.isDigit
  !core.isEmpty &&
    core.all (fun c => c.isDigit || c == '-' || c == '(' || c == ')') &&
    decide (7 ≤ digits.length) && decide (digits.length ≤ 15)

/-- Modelled from the spec (section 4.4): first whitespace-delimited word of
the document matching the email pattern. -/
def extractEmail (raw : List Char) : Option String :=
  ((wordsOf raw).find? isEmailWord).map String.mk

/-- Modelled from the spec (section 4.4): first whitespace-delimited word of
the document matching the phone pattern. -/
def extractPhone (raw : List Char) : Option String :=
  ((wordsOf raw).find? isPhoneWord).map String.mk

/-- Education keywords anchoring the college line (section 4.4). -/
def collegeKeywords : List (List Char) :=
  ["university".data, "college".data, "institute".data, "school of".data]

/-- Contact keywords that disqualify a line from being the name line. -/
def contactKeywords : List (List Char) :=
  [['@'], "email".data, "phone".data]

/-- Modelled from the spec (section 4.4): first line containing an education
keyword case-insensitively, trimmed and truncated for display. -/
def extractCollege (raw : List Char) : Option String :=
  ((linesOf raw).find? (fun l =>
      collegeKeywords.any (fun k => decide (k <:+: l.map Char.toLower)))).map
    (fun l => String.mk ((trimChars l).take 100))

/-- Modelled from the spec (section 4.4): the first non-empty line is the name
when it has no digits, no education/contact keywords, and 1-5 words. -/
def extractName (raw : List Char) : Option String :=
  match (linesOf raw).find? (fun l => !(trimChars l).isEmpty) with
  | none => none
  | some l =>
    let lower := l.map Char.toLower
    let wc := (wordsOf l).length
    if l.all (fun c => !c.isDigit) &&
        (collegeKeywords ++ contactKeywords).all (fun k => !decide (k <:+: lower)) &&
        decide (1 ≤ wc) && decide (wc ≤ 5) then
      some (String.mk (trimChars l))
    else none

/-- Modelled from the spec (sections 4.1/4.4): the profile produced for a
document whose extracted plain text is `text`. -/
def extractProfile (text : String) : ExtractedProfile :=
  { rawText := text
    name := extractName text.data
    email := extractEmail text.data
    phone := extractPhone text.data
    college := extractCollege text.data }

example : extractEmail "contact me at a.b@mail.com now".data = some "a.b@mail.com" := by decide
example : extractEmail "no at sign here".data = none := by decide
example : extractPhone "+91-9876543210".data = some "+91-9876543210" := by decide
example : extractPhone "id 123 only".data = none := by decide
example : extractCollege "Jane\nIndian Institute of Tech".data =
    some "Indian Institute of Tech" := by decide
example : extractName "Jane Doe\nother".data = some "Jane Doe" := by decide
example : extractProfile "" = ⟨"", none, none, none, none⟩ := by decide

/-! ## Score Aggregator (section 4.5)

Modelled from the spec: three signals normalized to `[0,1]`, combined with the
documented default weights `0.6 / 0.25 / 0.15`, mapped through
`round (1 + 99 * weightedSum)` and clamped to `[1,100]`. -/

/-- Stopword set used by the keyword-density signal (section 4.5: significant
words have length at least 4 and are not stopwords). -/
def stopwords : List (List Char) :=
  ["with".data, "from".data, "that".data, "this".data, "have".data,
   "will".data, "your".data, "must".data]

/-- Modelled from the spec (section 4.5): the distinct significant words of the
job's requirements and description — length at least 4 and not a stopword. -/
def significantWords (job : JobRole) : List (List Char) :=
  ((textTokens (job.requirements ++ " " ++ job.description)).filter
      (fun w => decide (4 ≤ w.length) && !stopwords.contains w)).dedup

/-- Modelled from the spec (section 4.5): fraction of the job's distinct
significant words that also appear in the resume tokens; `0` when the job text
has no significant words. -/
def keywordDensity (resumeTokens : List (List Char)) (job : JobRole) : ℚ :=
  let sig := significantWords job
  if sig.isEmpty then 0
  else ((sig.filter (fun w => resumeTokens.contains w)).length : ℚ) / (sig.length : ℚ)

/-- Modelled from the spec (section 4.5): skill coverage
`|matchedSkills| / |job.skills|` as a rational. -/
def skillCoverage (matched total : Nat) : ℚ :=
  (matched : ℚ) / (total : ℚ)

/-- Number of the four contact fields present in a profile. -/
def fieldCount (p : ExtractedProfile) : Nat :=
  (if p.name.isSome then 1 else 0) + (if p.email.isSome then 1 else 0) +
    (if p.phone.isSome then 1 else 0) + (if p.college.isSome then 1 else 0)

/-- Modelled from the spec (section 4.5): profile completeness — fraction of
the four fields `{name, email, phone, college}` extracted. -/
def completeness (p : ExtractedProfile) : ℚ :=
  (fieldCount p : ℚ) / 4

/-- Modelled from the spec (section 4.5): the documented default weights
`skillWeight = 0.6`, `keywordWeight = 0.25`, `completenessWeight = 0.15`
applied to the three normalized signals. -/
def weightedSum (cov dens comp : ℚ) : ℚ :=
  3 / 5 * cov + 1 / 4 * dens + 3 / 20 * comp

/-- Modelled from the spec (section 4.5): `round (1 + 99 * weightedSum)`. -/
def rawScore (ws : ℚ) : ℤ :=
  round (1 + 99 * ws)

/-- Modelled from the spec (section 4.5): clamp the rounded value to
`[1,100]`. -/
def clampScore (z : ℤ) : ℤ :=
  max 1 (min 100 z)

/-- Modelled from the spec (section 4.5): the final 1-100 score from the three
normalized signals. -/
def aggregateScore (cov dens comp : ℚ) : ℤ :=
  clampScore (rawScore (weightedSum cov dens comp))

/-! ## Scoring pipeline -/

/-- `ScreeningResult` record shape from the design document section 3. -/
structure ScreeningResult where
  id : Nat
  batchId : Nat
  jobId : Nat
  jobTitle : String
  name : Option String
  email : Option String
  phone : Option String
  college : Option String
  skills : List String
  matchedSkills : List String
  score : ℤ
  createdAt : Nat
deriving DecidableEq

/-- Identifier/timestamp metadata assigned by the coordinator to one result;
it is no input to any scoring signal. -/
structure ResultMeta where
  id : Nat
  batchId : Nat
  createdAt : Nat
deriving DecidableEq

/-- Modelled from the spec (sections 4.2-4.5 and section 3): score one
extracted resume text against a job-role snapshot.  `skillDictionary` is the
configured list of known skills used to fill the result's `skills` field (all
skills found in the resume, not just job-required ones); the job's own skills
are always part of the candidate set. -/
def mkScreeningResult (skillDictionary : List String) (job : JobRole)
    (meta : ResultMeta) (text : String) : ScreeningResult :=
  let p := extractProfile text
  let toks := textTokens text
  let matched := matchSkills toks job.skills
  { id := meta.id
    batchId := meta.batchId
    jobId := job.id
    jobTitle := job.title
    name := p.name
    email := p.email
    phone := p.phone
    college := p.college
    skills := matchSkills toks (skillDictionary ++ job.skills)
    matchedSkills := matched
    score := aggregateScore (skillCoverage matched.length job.skills.length)
      (keywordDensity toks job) (completeness p)
    createdAt := meta.createdAt }

/-! ## Batch Coordinator (section 4.6)

Modelled from the spec: the coordinator resolves the job id once, then maps
the per-document pipeline over the batch; extraction failures become
per-resume error entries tagged with the filename.  A document is modelled by
its filename together with the outcome of the Document Extractor on its bytes
(section 4.1): either an extraction error or the extracted plain text. -/

inductive ExtractionError where
  | UnsupportedFormat
  | CorruptDocument
deriving DecidableEq

instance {ε α : Type} [DecidableEq ε] [DecidableEq α] : DecidableEq (Except ε α) := by
  intro a b
  cases a <;> cases b
  case error.error e f =>
    exact if h : e = f then .isTrue (by rw [h]) else .isFalse (fun hh => h (by cases hh; rfl))
  case error.ok e x => exact .isFalse (fun hh => by cases hh)
  case ok.error x e => exact .isFalse (fun hh => by cases hh)
  case ok.ok x y =>
    exact if h : x = y then .isTrue (by rw [h]) else .isFalse (fun hh => h (by cases hh; rfl))

/-- One uploaded document: filename plus the Document Extractor outcome for
its bytes (modelled from the spec, section 4.1). -/
structure ResumeDocument where
  filename : String
  parsed : Except ExtractionError String
deriving DecidableEq

/-- Per-resume error entry: the originating filename and the error. -/
structure PerResumeError where
  filename : String
  error : ExtractionError
deriving DecidableEq

inductive BatchError where
  | JobNotFound
deriving DecidableEq

/-- Batch output: the fresh batch identifier plus the per-document outcomes in
input order. -/
structure BatchOutput where
  batchId : Nat
  items : List (Except PerResumeError ScreeningResult)
deriving DecidableEq

/-- Job-role lookup by id (the narrow `getJobById` read contract,
section 9). -/
def lookupJob (jobs : List JobRole) (jobId : Nat) : Option JobRole :=
  jobs.find? (fun j => j.id == jobId)

/-- Modelled from the spec (section 4.6): process one document of the batch;
an extraction failure becomes a per-resume error tagged with the filename. -/
def processDoc (skillDictionary : List String) (batchId : Nat) (job : JobRole)
    (idx : Nat) (d : ResumeDocument) : Except PerResumeError ScreeningResult :=
  match d.parsed with
  | .error e => .error ⟨d.filename, e⟩
  | .ok text => .ok (mkScreeningResult skillDictionary job ⟨idx, batchId, batchId⟩ text)

/-- Process the documents in order, numbering them from `idx`. -/
def processDocs (skillDictionary : List String) (batchId : Nat) (job : JobRole)
    (idx : Nat) : List ResumeDocument → List (Except PerResumeError ScreeningResult)
  | [] => []
  | d :: ds =>
    processDoc skillDictionary batchId job idx d ::
      processDocs skillDictionary batchId job (idx + 1) ds

/-- Modelled from the spec (section 4.6 Batch Coordinator): resolve the job id
once; a missing job fails the whole batch with `JobNotFound` before any
document is processed, otherwise every document is processed independently in
input order. -/
def processBatch (skillDictionary : List String) (jobs : List JobRole)
    (batchId jobId : Nat) (docs : List ResumeDocument) :
    Except BatchError BatchOutput :=
  match lookupJob jobs jobId with
  | none => .error .JobNotFound
  | some job => .ok ⟨batchId, processDocs skillDictionary batchId job 0 docs⟩

/-- Count of successful screening results in a batch item list. -/
def countOk (items : List (Except PerResumeError ScreeningResult)) : Nat :=
  items.countP (fun it => match it with | .ok _ => true | .error _ => false)

/-- Count of per-resume error entries in a batch item list. -/
def countErr (items : List (Except PerResumeError ScreeningResult)) : Nat :=
  items.countP (fun it => match it with | .ok _ => false | .error _ => true)

/-- The item list of a batch outcome (empty when the batch failed). -/
def batchItems : Except BatchError BatchOutput → List (Except PerResumeError ScreeningResult)
  | .ok out => out.items
  | .error _ => []

/-! ## Demo fixtures used for concrete evaluations -/

/-- A concrete job role used to exercise the pipeline. -/
def demoJob : JobRole :=
  { id := 1
    title := "Data Analyst"
    department := "Engineering"
    location := "Remote"
    description := "analysis of data pipelines"
    requirements := "experience with Python and SQL required"
    skills := ["Python", "SQL", "Machine Learning"]
    createdAt := 0 }

/-- A concrete configured skill dictionary. -/
def demoDict : List String := ["Python", "SQL", "Java", "Excel"]

/-- A concrete job store holding only `demoJob` (id 1). -/
def demoJobs : List JobRole := [demoJob]

/-- A concrete three-document batch whose second document is corrupted. -/
def demoDocs3 : List ResumeDocument :=
  [⟨"a.pdf", .ok "experience in Python and SQL scripting"⟩,
   ⟨"b.pdf", .error .CorruptDocument⟩,
   ⟨"c.pdf", .ok "SQL analyst"⟩]

/-! ## Helper lemmas -/

lemma splitOnChar_ne_nil (sep : Char) (cs : List Char) : splitOnChar sep cs ≠ [] := by
  induction cs with
  | nil => simp [splitOnChar]
  | cons c cs ih =>
    rw [splitOnChar]
    by_cases hc : c = sep
    · simp [hc]
    · rw [if_neg hc]
      cases h : splitOnChar sep cs with
      | nil => exact absurd h ih
      | cons t ts => simp

lemma splitOnChar_append (sep : Char) (xs ys : List Char) :
    splitOnChar sep (xs ++ sep :: ys) = splitOnChar sep xs ++ splitOnChar sep ys := by
  induction xs with
  | nil => simp [splitOnChar]
  | cons c cs ih =>
    by_cases hc : c = sep
    · subst hc
      rw [List.cons_append, splitOnChar, if_pos rfl, ih, splitOnChar, if_pos rfl,
        List.cons_append]
    · rw [List.cons_append, splitOnChar, if_neg hc, ih, splitOnChar, if_neg hc]
      cases h : splitOnChar sep cs with
      | nil => exact absurd h (splitOnChar_ne_nil sep cs)
      | cons t ts => rfl

lemma clampScore_range (z : ℤ) : 1 ≤ clampScore z ∧ clampScore z ≤ 100 := by
  unfold clampScore
  rcases le_total z 100 with h | h <;> rcases le_total 1 z with h1 | h1 <;>
    simp [max_def, min_def] <;> omega

lemma clampScore_mono {z z' : ℤ} (h : z ≤ z') : clampScore z ≤ clampScore z' := by
  unfold clampScore
  rcases le_total z 100 with h2 | h2 <;> rcases le_total z' 100 with h3 | h3 <;>
    simp [max_def, min_def] <;> omega

lemma clampScore_eq_self {z : ℤ} (h1 : 1 ≤ z) (h2 : z ≤ 100) : clampScore z = z := by
  unfold clampScore
  rw [min_eq_right h2, max_eq_right h1]

lemma rawScore_mono {a b : ℚ} (h : a ≤ b) : rawScore a ≤ rawScore b := by
  unfold rawScore
  rw [round_eq, round_eq]
  exact Int.floor_le_floor (by linarith)

lemma rawScore_one_le {ws : ℚ} (h : 0 ≤ ws) : 1 ≤ rawScore ws := by
  unfold rawScore
  rw [round_eq]
  exact Int.le_floor.mpr (by push_cast; linarith)

lemma rawScore_le_100 {ws : ℚ} (h : ws ≤ 1) : rawScore ws ≤ 100 := by
  unfold rawScore
  rw [round_eq]
  have : (1 + 99 * ws + 1 / 2 : ℚ) < 101 := by linarith
  have := Int.floor_lt.mpr (by push_cast; linarith : (1 + 99 * ws + 1 / 2 : ℚ) < (101 : ℤ))
  omega

lemma weightedSum_nonneg {cov dens comp : ℚ} (h1 : 0 ≤ cov) (h2 : 0 ≤ dens)
    (h3 : 0 ≤ comp) : 0 ≤ weightedSum cov dens comp := by
  unfold weightedSum
  nlinarith

lemma weightedSum_le_one {cov dens comp : ℚ} (h1 : cov ≤ 1) (h2 : dens ≤ 1)
    (h3 : comp ≤ 1) : weightedSum cov dens comp ≤ 1 := by
  unfold weightedSum
  nlinarith

lemma matchSkills_subset (toks : List (List Char)) (skills : List String) :
    matchSkills toks skills ⊆ skills := by
  intro sk h
  unfold matchSkills at h
  exact List.mem_dedup.mp (List.mem_filter.mp h).1

lemma matchSkills_mono_candidates {toks : List (List Char)} {s₁ s₂ : List String}
    (hsub : ∀ x, x ∈ s₁ → x ∈ s₂) :
    ∀ sk, sk ∈ matchSkills toks s₁ → sk ∈ matchSkills toks s₂ := by
  intro sk h
  unfold matchSkills at h ⊢
  rcases List.mem_filter.mp h with ⟨h1, h2⟩
  exact List.mem_filter.mpr ⟨List.mem_dedup.mpr (hsub _ (List.mem_dedup.mp h1)), h2⟩

lemma keywordDensity_nil (job : JobRole) : keywordDensity [] job = 0 := by
  unfold keywordDensity
  dsimp only
  split_ifs with h
  · rfl
  · rw [List.filter_eq_nil_iff.mpr (fun a _ => by simp [List.contains])]
    simp

lemma aggregateScore_zero : aggregateScore 0 0 0 = 1 := by
  unfold aggregateScore weightedSum rawScore
  norm_num [round_one]
  decide

lemma processDocs_length (dict : List String) (b : Nat) (job : JobRole) :
    ∀ (docs : List ResumeDocument) (i : Nat),
      (processDocs dict b job i docs).length = docs.length := by
  intro docs
  induction docs with
  | nil => intro i; rfl
  | cons d ds ih => intro i; simp [processDocs, ih]

lemma processDocs_getElem? (dict : List String) (b : Nat) (job : JobRole) :
    ∀ (docs : List ResumeDocument) (i k : Nat),
      (processDocs dict b job i docs)[k]? =
        (docs[k]?).map (processDoc dict b job (i + k)) := by
  intro docs
  induction docs with
  | nil => intro i k; simp [processDocs]
  | cons d ds ih =>
    intro i k
    cases k with
    | zero => simp [processDocs]
    | succ k =>
      have harith : i + 1 + k = i + (k + 1) := by omega
      simp [processDocs, ih (i + 1) k, harith]

/-! ## Claim theorems -/

/-- C1: the score classification bands are fixed — a score strictly below 40 is
classified rejected/non-matching (`score-low`, rejected card), a score in
`[40,70)` is a medium match, and a score of at least 70 is a strong match; both
display components (`Results.getScoreClass` and the `Dashboard` badge) use
exactly these thresholds. -/
theorem score_bands_fixed (score : Int) :
    (getScoreClass score = "score-low" ↔ score < 40) ∧
    (getScoreClass score = "score-medium" ↔ 40 ≤ score ∧ score < 70) ∧
    (getScoreClass score = "score-high" ↔ 70 ≤ score) ∧
    dashboardScoreClass score = getScoreClass score ∧
    (resultCardRejected score = true ↔ score < 40) := by
  unfold getScoreClass dashboardScoreClass resultCardRejected
  refine ⟨?_, ?_, ?_, rfl, by simp⟩ <;> split_ifs <;> simp_all <;> omega

/-- C8: exactly the PDF and DOCX MIME types are accepted — a file survives the
upload filter iff it was selected and its declared type is one of the two; the
drop handler applies the same filter. -/
theorem upload_mime_filter (files : List UploadFile) (f : UploadFile) :
    (f ∈ handleFileChangeValid files ↔
      f ∈ files ∧ (f.type = pdfMime ∨ f.type = docxMime)) ∧
    handleDropValid files = handleFileChangeValid files := by
  refine ⟨?_, rfl⟩
  simp [handleFileChangeValid, List.mem_filter]

/-- C9: scoring is deterministic — the matched-skill set and the score of a
screening run depend only on the resume text, the job-role snapshot and the
skill dictionary, never on the per-run identifiers/timestamps, so two runs on
the same inputs agree. -/
theorem scoring_deterministic (dict : List String) (job : JobRole)
    (meta₁ meta₂ : ResultMeta) (text : String) :
    (mkScreeningResult dict job meta₁ text).matchedSkills =
      (mkScreeningResult dict job meta₂ text).matchedSkills ∧
    (mkScreeningResult dict job meta₁ text).skills =
      (mkScreeningResult dict job meta₂ text).skills ∧
    (mkScreeningResult dict job meta₁ text).score =
      (mkScreeningResult dict job meta₂ text).score :=
  ⟨rfl, rfl, rfl⟩

/-- C10: the job-roles form splits the skills input on commas and trims each
piece without removing empty entries — any input ending in a comma, and any
input with consecutive commas, submits an array containing the empty string. -/
theorem submittedSkills_keeps_empty_entries (s : String) :
    (∀ xs, s.data = xs ++ [','] → "" ∈ submittedSkills s) ∧
    (∀ xs ys, s.data = xs ++ ',' :: ',' :: ys → "" ∈ submittedSkills s) := by
  constructor
  · intro xs hx
    unfold submittedSkills
    rw [hx, splitOnChar_append ',' xs []]
    exact List.mem_map.mpr ⟨[], by simp [splitOnChar], rfl⟩
  · intro xs ys hx
    unfold submittedSkills
    rw [hx]
    rw [splitOnChar_append ',' xs (',' :: ys)]
    have h2 : splitOnChar ',' (',' :: ys) = [] :: splitOnChar ',' ys := by
      rw [splitOnChar, if_pos rfl]
    rw [h2]
    exact List.mem_map.mpr ⟨[], by simp, rfl⟩

/-- Witness for C10 at the concrete input `"Python,"`. -/
theorem submittedSkills_keeps_empty_entries_witness :
    "Python,".data = "Python".data ++ [','] ∧ "" ∈ submittedSkills "Python," :=
  ⟨by decide, (submittedSkills_keeps_empty_entries "Python,").1 "Python".data (by decide)⟩

/-- C2: with all three signals normalized to `[0,1]` the aggregator returns
exactly `round (1 + 99 * weightedSum)` (the clamp never fires), an integer in
`[1,100]`; a resume matching 0 of N required skills with zero keyword density
and no extractable fields scores exactly 1 — also through the full pipeline —
and never 0. -/
theorem aggregateScore_range_and_floor :
    (∀ cov dens comp : ℚ, 0 ≤ cov → cov ≤ 1 → 0 ≤ dens → dens ≤ 1 →
      0 ≤ comp → comp ≤ 1 →
      aggregateScore cov dens comp = round (1 + 99 * weightedSum cov dens comp) ∧
      1 ≤ aggregateScore cov dens comp ∧ aggregateScore cov dens comp ≤ 100) ∧
    (∀ n : ℕ, aggregateScore (skillCoverage 0 n) 0 0 = 1) ∧
    (mkScreeningResult [] demoJob ⟨0, 0, 0⟩ "").score = 1 ∧
    (mkScreeningResult [] demoJob ⟨0, 0, 0⟩ "").score ≠ 0 := by
  have hzero : ∀ n : ℕ, aggregateScore (skillCoverage 0 n) 0 0 = 1 := by
    intro n
    have : skillCoverage 0 n = 0 := by unfold skillCoverage; simp
    rw [this, aggregateScore_zero]
  have hpipe : (mkScreeningResult [] demoJob ⟨0, 0, 0⟩ "").score = 1 := by
    have hform : (mkScreeningResult [] demoJob ⟨0, 0, 0⟩ "").score =
        aggregateScore
          (skillCoverage (matchSkills (textTokens "") demoJob.skills).length
            demoJob.skills.length)
          (keywordDensity (textTokens "") demoJob)
          (completeness (extractProfile "")) := rfl
    have hm : matchSkills (textTokens "") demoJob.skills = [] := by decide
    have hp : extractProfile "" = ⟨"", none, none, none, none⟩ := by decide
    have htok : textTokens "" = ([] : List (List Char)) := rfl
    have hcomp : completeness (⟨"", none, none, none, none⟩ : ExtractedProfile) = 0 := by
      norm_num [completeness, fieldCount]
    rw [hform, hm, hp, htok, keywordDensity_nil, hcomp]
    simpa using hzero demoJob.skills.length
  refine ⟨?_, hzero, hpipe, by rw [hpipe]; decide⟩
  intro cov dens comp hc0 hc1 hd0 hd1 hp0 hp1
  have hws0 : 0 ≤ weightedSum cov dens comp := weightedSum_nonneg hc0 hd0 hp0
  have hws1 : weightedSum cov dens comp ≤ 1 := weightedSum_le_one hc1 hd1 hp1
  have h1 : 1 ≤ rawScore (weightedSum cov dens comp) := rawScore_one_le hws0
  have h2 : rawScore (weightedSum cov dens comp) ≤ 100 := rawScore_le_100 hws1
  have heq : aggregateScore cov dens comp = rawScore (weightedSum cov dens comp) := by
    unfold aggregateScore
    exact clampScore_eq_self h1 h2
  exact ⟨heq, by rw [heq]; exact h1, by rw [heq]; exact h2⟩

/-- Witness for C2 at the concrete signals `(0, 0, 0)`. -/
theorem aggregateScore_range_and_floor_witness :
    ((0 : ℚ) ≤ 0 ∧ (0 : ℚ) ≤ 1) ∧
      (aggregateScore 0 0 0 = round (1 + 99 * weightedSum 0 0 0) ∧
        1 ≤ aggregateScore 0 0 0 ∧ aggregateScore 0 0 0 ≤ 100) :=
  ⟨⟨le_refl 0, zero_le_one⟩,
    aggregateScore_range_and_floor.1 0 0 0 (le_refl 0) zero_le_one (le_refl 0)
      zero_le_one (le_refl 0) zero_le_one⟩

/-- C3: for every job role with non-empty skills and every resume text, the
screening result satisfies `matchedSkills ⊆ job.skills`,
`matchedSkills ⊆ skills`, and `score ∈ [1,100]`. -/
theorem screening_invariants (dict : List String) (job : JobRole)
    (meta : ResultMeta) (text : String) (hsk : job.skills ≠ []) :
    (mkScreeningResult dict job meta text).matchedSkills ⊆ job.skills ∧
    (mkScreeningResult dict job meta text).matchedSkills ⊆
      (mkScreeningResult dict job meta text).skills ∧
    1 ≤ (mkScreeningResult dict job meta text).score ∧
    (mkScreeningResult dict job meta text).score ≤ 100 := by
  refine ⟨?_, ?_, (clampScore_range _).1, (clampScore_range _).2⟩
  · intro sk h
    exact matchSkills_subset (textTokens text) job.skills h
  · intro sk h
    exact matchSkills_mono_candidates (fun x hx => List.mem_append_right dict hx) sk h

/-- Witness for C3 at a concrete job and resume text. -/
theorem screening_invariants_witness :
    demoJob.skills ≠ [] ∧
      ((mkScreeningResult demoDict demoJob ⟨0, 0, 0⟩ "python").matchedSkills ⊆
          demoJob.skills ∧
        (mkScreeningResult demoDict demoJob ⟨0, 0, 0⟩ "python").matchedSkills ⊆
          (mkScreeningResult demoDict demoJob ⟨0, 0, 0⟩ "python").skills ∧
        1 ≤ (mkScreeningResult demoDict demoJob ⟨0, 0, 0⟩ "python").score ∧
        (mkScreeningResult demoDict demoJob ⟨0, 0, 0⟩ "python").score ≤ 100) :=
  ⟨by decide, screening_invariants demoDict demoJob ⟨0, 0, 0⟩ "python" (by decide)⟩

/-- C4: the score is monotonic non-decreasing in the number of matched skills —
adding one matched skill while holding the keyword-density and
profile-completeness signals fixed never decreases the score. -/
theorem score_monotone_in_matched (m n : ℕ) (dens comp : ℚ) (h : m < n) :
    aggregateScore (skillCoverage m n) dens comp ≤
      aggregateScore (skillCoverage (m + 1) n) dens comp := by
  apply clampScore_mono
  apply rawScore_mono
  have hn : (0 : ℚ) < (n : ℚ) := by
    exact_mod_cast Nat.zero_lt_of_lt h
  have hcov : skillCoverage m n ≤ skillCoverage (m + 1) n := by
    unfold skillCoverage
    exact (div_le_div_iff_of_pos_right hn).mpr (by push_cast; linarith)
  unfold weightedSum
  linarith

/-- Witness for C4 at `m = 0`, `n = 1`, zero other signals. -/
theorem score_monotone_in_matched_witness :
    0 < 1 ∧
      aggregateScore (skillCoverage 0 1) 0 0 ≤ aggregateScore (skillCoverage 1 1) 0 0 :=
  ⟨by decide, score_monotone_in_matched 0 1 0 0 (by decide)⟩

/-- C5: skill matching respects whole-word token boundaries — a skill is
matched only when its normalized token run occurs contiguously among the
resume tokens, so "Go" does not match "Google" and "Java" does not match
"JavaScript", while a listed "JavaScript" does match. -/
theorem skill_matching_word_boundary :
    (∀ (resumeTokens : List (List Char)) (jobSkills : List String) (sk : String),
        sk ∈ matchSkills resumeTokens jobSkills →
        sk ∈ jobSkills ∧ textTokens sk ≠ [] ∧ textTokens sk <:+: resumeTokens) ∧
    matchSkills (textTokens "I worked at Google") ["Go"] = [] ∧
    matchSkills (textTokens "expert in JavaScript") ["Java"] = [] ∧
    matchSkills (textTokens "expert in JavaScript") ["Java", "JavaScript"] =
      ["JavaScript"] := by
  refine ⟨?_, by decide, by decide, by decide⟩
  intro resumeTokens jobSkills sk h
  have hsub := matchSkills_subset resumeTokens jobSkills h
  unfold matchSkills at h
  rcases List.mem_filter.mp h with ⟨_, h2⟩
  unfold skillFound at h2
  simp only [Bool.and_eq_true, Bool.not_eq_true', decide_eq_true_eq] at h2
  refine ⟨hsub, ?_, h2.2⟩
  intro hnil
  rw [hnil] at h2
  simp at h2

/-- Witness for C5: `"Python"` is reported matched in a concrete resume, and
the theorem yields its whole-word occurrence. -/
theorem skill_matching_word_boundary_witness :
    "Python" ∈ matchSkills (textTokens "I use Python daily") ["Python"] ∧
      ("Python" ∈ (["Python"] : List String) ∧ textTokens "Python" ≠ [] ∧
        textTokens "Python" <:+: textTokens "I use Python daily") :=
  ⟨by decide,
    skill_matching_word_boundary.1 (textTokens "I use Python daily") ["Python"]
      "Python" (by decide)⟩

/-- C6: the batch coordinator processes every document independently — when
the job resolves, the outcome is the per-document pipeline mapped over the
batch in order, an extraction failure becomes a per-resume error entry tagged
with its filename without aborting any other document, and the concrete
3-document batch whose second document is corrupted yields 2 screening results
and 1 per-document error. -/
theorem batch_partial_failure :
    (∀ (dict : List String) (jobs : List JobRole) (batchId jobId : Nat)
        (docs : List ResumeDocument) (job : JobRole),
      lookupJob jobs jobId = some job →
      processBatch dict jobs batchId jobId docs =
        .ok ⟨batchId, processDocs dict batchId job 0 docs⟩ ∧
      (processDocs dict batchId job 0 docs).length = docs.length ∧
      (∀ (k : Nat) (d : ResumeDocument), docs[k]? = some d →
        (processDocs dict batchId job 0 docs)[k]? =
          some (processDoc dict batchId job k d)) ∧
      (∀ (k : Nat) (d : ResumeDocument) (e : ExtractionError), docs[k]? = some d →
        d.parsed = .error e →
        (processDocs dict batchId job 0 docs)[k]? =
          some (.error ⟨d.filename, e⟩))) ∧
    countOk (batchItems (processBatch demoDict demoJobs 7 1 demoDocs3)) = 2 ∧
    countErr (batchItems (processBatch demoDict demoJobs 7 1 demoDocs3)) = 1 ∧
    (batchItems (processBatch demoDict demoJobs 7 1 demoDocs3))[1]? =
      some (.error ⟨"b.pdf", .CorruptDocument⟩) := by
  refine ⟨?_, by decide, by decide, by decide⟩
  intro dict jobs batchId jobId docs job hjob
  have hout : processBatch dict jobs batchId jobId docs =
      .ok ⟨batchId, processDocs dict batchId job 0 docs⟩ := by
    unfold processBatch
    rw [hjob]
  have hget : ∀ (k : Nat) (d : ResumeDocument), docs[k]? = some d →
      (processDocs dict batchId job 0 docs)[k]? =
        some (processDoc dict batchId job k d) := by
    intro k d hd
    rw [processDocs_getElem? dict batchId job docs 0 k, hd]
    simp
  refine ⟨hout, processDocs_length dict batchId job docs 0, hget, ?_⟩
  intro k d e hd he
  rw [hget k d hd]
  unfold processDoc
  rw [he]

/-- Witness for C6: the general part applied to the concrete job store and
3-document batch. -/
theorem batch_partial_failure_witness :
    lookupJob demoJobs 1 = some demoJob ∧
      (processBatch demoDict demoJobs 7 1 demoDocs3 =
          .ok ⟨7, processDocs demoDict 7 demoJob 0 demoDocs3⟩ ∧
        (processDocs demoDict 7 demoJob 0 demoDocs3).length = demoDocs3.length ∧
        (∀ (k : Nat) (d : ResumeDocument), demoDocs3[k]? = some d →
          (processDocs demoDict 7 demoJob 0 demoDocs3)[k]? =
            some (processDoc demoDict 7 demoJob k d)) ∧
        (∀ (k : Nat) (d : ResumeDocument) (e : ExtractionError), demoDocs3[k]? = some d →
          d.parsed = .error e →
          (processDocs demoDict 7 demoJob 0 demoDocs3)[k]? =
            some (.error ⟨d.filename, e⟩))) :=
  ⟨by decide, batch_partial_failure.1 demoDict demoJobs 7 1 demoDocs3 demoJob (by decide)⟩

/-- C7: a batch whose job id does not resolve fails fast with `JobNotFound`
and produces zero screening results. -/
theorem jobNotFound_fails_fast (dict : List String) (jobs : List JobRole)
    (batchId jobId : Nat) (docs : List ResumeDocument)
    (h : lookupJob jobs jobId = none) :
    processBatch dict jobs batchId jobId docs = .error .JobNotFound ∧
    (∀ out, processBatch dict jobs batchId jobId docs ≠ .ok out) ∧
    batchItems (processBatch dict jobs batchId jobId docs) = [] := by
  have hfail : processBatch dict jobs batchId jobId docs = .error .JobNotFound := by
    unfold processBatch
    rw [h]
  refine ⟨hfail, ?_, by rw [hfail]; rfl⟩
  intro out hh
  rw [hfail] at hh
  cases hh

/-- Witness for C7 with an empty job store. -/
theorem jobNotFound_fails_fast_witness :
    lookupJob [] 0 = none ∧
      (processBatch demoDict [] 3 0 demoDocs3 = .error .JobNotFound ∧
        (∀ out, processBatch demoDict [] 3 0 demoDocs3 ≠ .ok out) ∧
        batchItems (processBatch demoDict [] 3 0 demoDocs3) = []) :=
  ⟨rfl, jobNotFound_fails_fast demoDict [] 3 0 demoDocs3 rfl⟩

end ATS
